import Mathlib

/-!
Verification of the plexrr transfer engine against its specification.

The development shallowly embeds the JavaScript sources:
  * src/utils/formatters.js      — formatSpeed, formatEta
  * src/utils/ThrottledStream.js — constructor and the per-chunk transform
  * src/services/transferService.js — getResumePosition, the skip decision,
    and the streaming event handlers (data / drain) as a step machine
  * src/config/constants.js      — TRANSFER_CONSTANTS

JavaScript numbers are modelled as exact rationals (the evaluated inputs
stay well inside the range where IEEE doubles are exact for these
operations); byte counts are naturals, Date.now timestamps are rationals
in milliseconds.
-/

namespace Plexrr

/-! ## Constants (src/config/constants.js) -/

namespace TRANSFER_CONSTANTS

def CHUNK_SIZE : Nat := 64 * 1024

def MAX_CONCURRENT_CHUNKS : Int := 32

def SPEED_SAMPLE_SIZE : Nat := 10

def READY_TIMEOUT : Nat := 20000

def KEEPALIVE_INTERVAL : Nat := 10000

end TRANSFER_CONSTANTS

/-! ## Formatters (src/utils/formatters.js)

JavaScript `Math.floor`, `Math.ceil`, `%` and `toFixed` on the numbers the
callers pass are embedded over the rationals.
-/

/-- JavaScript number truncation toward zero, as the `%` operator uses. -/
def jsTrunc (q : ℚ) : ℤ :=
  if 0 ≤ q then ⌊q⌋ else ⌈q⌉

/-- JavaScript remainder `a % b`: `a - b * trunc (a / b)`. -/
def jsMod (a b : ℚ) : ℚ :=
  a - b * (jsTrunc (a / b) : ℚ)

/-- JavaScript `value.toFixed(2)` for the exactly-representable non-negative
values the formatters produce: round to hundredths, print two decimals. -/
def toFixed2 (value : ℚ) : String :=
  let scaled : ℤ := ⌊value * 100 + 1 / 2⌋
  let intPart := scaled / 100
  let frac := scaled % 100
  toString intPart ++ "." ++ (if frac < 10 then "0" else "") ++ toString frac

/-- The unit-scaling loop of formatSpeed: `while (value > 1024 && unitIndex <
units.length - 1) { value /= 1024; unitIndex++ }`. The fuel argument is the
number of steps the guard `unitIndex < units.length - 1` still allows. -/
def speedLoop : ℚ → Nat → Nat → ℚ × Nat
  | value, unitIndex, 0 => (value, unitIndex)
  | value, unitIndex, fuel + 1 =>
      if 1024 < value then speedLoop (value / 1024) (unitIndex + 1) fuel
      else (value, unitIndex)

/-- formatSpeed from src/utils/formatters.js: scale through
B/s, KB/s, MB/s, GB/s dividing by 1024, print with two decimals. -/
def formatSpeed (bytesPerSecond : ℚ) : String :=
  let units := ["B/s", "KB/s", "MB/s", "GB/s"]
  let r := speedLoop bytesPerSecond 0 (units.length - 1)
  toFixed2 r.1 ++ " " ++ units.getD r.2 "B/s"

/-- formatEta from src/utils/formatters.js. -/
def formatEta (seconds : ℚ) : String :=
  if seconds < 60 then
    toString ⌈seconds⌉ ++ "s"
  else if seconds < 3600 then
    let minutes := ⌊seconds / 60⌋
    let remainingSeconds := ⌈jsMod seconds 60⌉
    toString minutes ++ "m " ++ toString remainingSeconds ++ "s"
  else if seconds < 86400 then
    let hours := ⌊seconds / 3600⌋
    let minutes := ⌊jsMod seconds 3600 / 60⌋
    let remainingSeconds := ⌈jsMod seconds 60⌉
    toString hours ++ "h " ++ toString minutes ++ "m " ++
      toString remainingSeconds ++ "s"
  else
    let days := ⌊seconds / 86400⌋
    let hours := ⌊jsMod seconds 86400 / 3600⌋
    let minutes := ⌊jsMod seconds 3600 / 60⌋
    let remainingSeconds := ⌈jsMod seconds 60⌉
    toString days ++ "d " ++ toString hours ++ "h " ++ toString minutes ++
      "m " ++ toString remainingSeconds ++ "s"

/-! ## ThrottledStream (src/utils/ThrottledStream.js) -/

/-- The mutable fields of a ThrottledStream instance. -/
structure ThrottledStream where
  bytesPerSecond : ℚ
  lastCheck : ℚ
  bytesThisPeriod : ℚ
deriving DecidableEq, Repr

/-- The constructor: `this.bytesPerSecond = options.bytesPerSecond || 1024 *
1024`. A missing option and the falsy value 0 both select the 1 MB/s
default; `now` is the Date.now() value of `this.lastCheck = Date.now()`. -/
def ThrottledStream.construct (bytesPerSecondOption : Option ℚ) (now : ℚ) :
    ThrottledStream :=
  { bytesPerSecond :=
      match bytesPerSecondOption with
      | some b => if b = 0 then 1024 * 1024 else b
      | none => 1024 * 1024
  , lastCheck := now
  , bytesThisPeriod := 0 }

/-- Whether _transform pushes the chunk at once or from a setTimeout whose
delay is the wait in milliseconds. -/
inductive EmitTiming where
  | immediate
  | delayed (requiredDelay : ℤ)
deriving DecidableEq, Repr

/-- ThrottledStream._transform. In both branches `this.push(chunk)` emits the
incoming chunk itself, once, before the callback lets the next chunk in, so
the step returns the timing together with the state the instance has after
the push: in the delayed branch `lastCheck = Date.now()` runs inside the
setTimeout, so the new state depends on the wake-up time. -/
def ThrottledStream.transform (ts : ThrottledStream) (now chunkLength : ℚ) :
    EmitTiming × (ℚ → ThrottledStream) :=
  let timeDelta := now - ts.lastCheck
  let bytesThisPeriod := ts.bytesThisPeriod + chunkLength
  let allowedBytes := ts.bytesPerSecond * timeDelta / 1000
  if bytesThisPeriod > allowedBytes then
    (EmitTiming.delayed ⌈1000 * bytesThisPeriod / ts.bytesPerSecond - timeDelta⌉,
     fun wake => { ts with lastCheck := wake, bytesThisPeriod := 0 })
  else
    (EmitTiming.immediate, fun _ => { ts with bytesThisPeriod := bytesThisPeriod })

/-- One chunk fed to a ThrottledStream: the Date.now() at the start of
_transform, the Date.now() inside the setTimeout callback (unused on the
immediate path), and the bytes of the chunk. -/
structure TimedChunk where
  now : ℚ
  wake : ℚ
  chunk : List Nat
deriving DecidableEq, Repr

/-- Driving a ThrottledStream over a chunk sequence: the Transform stream
calls _transform once per chunk, in order, each push happening before the
next _transform starts; the emitted chunk sequence is collected. -/
def throttledRun (ts : ThrottledStream) : List TimedChunk → List (List Nat)
  | [] => []
  | tc :: rest =>
      let r := ts.transform tc.now (tc.chunk.length : ℚ)
      tc.chunk :: throttledRun (r.2 tc.wake) rest

/-- The delay formula exactly as the specification words it: 1000 *
bytesEmittedInWindow / bytesPerSecond - elapsed. -/
def specClaimedDelay (bytesEmittedInWindow bytesPerSecond elapsed : ℚ) : ℚ :=
  1000 * bytesEmittedInWindow / bytesPerSecond - elapsed

/-! ## transferService.js: resume offset, skip decision, terminal results -/

/-- Error codes a fs.promises.stat rejection can carry. -/
inductive FsErrorCode where
  | ENOENT
  | EACCES
  | other (code : String)
deriving DecidableEq, Repr

/-- The outcome of the `fs.promises.stat(localPath)` call inside
getResumePosition: the stats (of which only size is read) or a rejection. -/
inductive StatResult where
  | ok (size : Nat)
  | error (code : FsErrorCode)
deriving DecidableEq, Repr

/-- Errors a filesystem helper could propagate to its caller. -/
inductive TransferError where
  | filesystemError (code : FsErrorCode)
deriving DecidableEq, Repr

/-- getResumePosition from src/services/transferService.js lines 40-47: try
to stat the local path and return its size; the bare catch swallows every
rejection and returns 0. -/
def getResumePosition (st : StatResult) : Except TransferError Nat :=
  match st with
  | .ok size => .ok size
  | .error _ => .ok 0

/-- Modelled from the spec words of claim C2, for comparison with the
source function: offset 0 only for a not-found error, the byte length on
success, and every other filesystem error propagated as FilesystemError. -/
def getResumePositionSpec (st : StatResult) : Except TransferError Nat :=
  match st with
  | .ok size => .ok size
  | .error .ENOENT => .ok 0
  | .error c => .error (.filesystemError c)

/-- A value passed to the promise resolve callback: the skipped path
resolves an object of string-valued fields, the finish handler resolves a
plain string. -/
inductive JsValue where
  | str (s : String)
  | obj (fields : List (String × String))
deriving DecidableEq, Repr

/-- The field names of a resolved value; a plain string has none. -/
def JsValue.fieldNames : JsValue → List String
  | .str _ => []
  | .obj fields => fields.map (fun f => f.1)

/-- Look a field up in a resolved value. -/
def JsValue.getField : JsValue → String → Option String
  | .str _, _ => none
  | .obj fields, k => (fields.find? (fun f => f.1 == k)).map (fun f => f.2)

/-- The object `resolve` receives on the skipped path (lines 117-120). -/
def skippedResult : JsValue :=
  .obj [("status", "skipped"), ("message", "File already completely downloaded")]

/-- The value `resolve` receives in the writeStream finish handler
(line 215). -/
def completeResult : JsValue :=
  .str "\nTransfer complete!"

/-- The externally visible operations the body of transferFile performs
after the remote stat, in order. -/
inductive Action where
  | connEnd
  | resolveWith (v : JsValue)
  | openReadStream (start : Nat)
  | openWriteStream (start : Nat) (append : Bool)
  | startStreaming
deriving DecidableEq, Repr

/-- transferFile lines 112-160: once startPosition (the resume offset) and
fileSize (the remote size) are known, either skip — close the connection,
resolve the skipped object, return before any stream is created — or open
the SFTP read stream at startPosition and the local write stream (append
mode exactly when startPosition is truthy) and start the streaming phase. -/
def transferAfterStat (startPosition fileSize : Nat) : List Action :=
  if startPosition ≥ fileSize then
    [.connEnd, .resolveWith skippedResult]
  else
    [.openReadStream startPosition,
     .openWriteStream startPosition (startPosition ≠ 0),
     .startStreaming]

/-- The writeStream finish handler (lines 212-216): terminate the bar, close
the connection, resolve with the completion string. -/
def finishActions : List Action :=
  [.connEnd, .resolveWith completeResult]

/-! ## The streaming phase as a step machine — unthrottled configuration

The data handler (transferService.js lines 163-200) and the drain handler
(lines 202-205) drive all mutable state of a transfer. The machine below
embeds those two handlers verbatim over one state record; the environment
chooses each data event time, chunk length and whether `writeStream.write`
returned false (buffer full). Its event validity models the UNTHROTTLED
configuration — CONFIG.TRANSFER_SPEED_LIMIT unset, so line 152 makes
`dataStream` the readStream itself: Node then delivers data events only
while the readStream is not paused, delivers no empty chunk on a byte
stream, and fires drain only after a write returned false; events
violating that are not steps of the machine (the step returns none). With
a configured speed limit the data events instead come out of the
ThrottledStream and the readStream's pause no longer gates them; that
wiring is modelled separately below (ThrottledPipe).
-/

/-- One progress report: the tick at lines 184-190 with the average speed,
the remaining bytes and the eta the code computed from them. -/
structure Report where
  speed : ℚ
  remaining : ℚ
  eta : ℤ
deriving DecidableEq, Repr

/-- The mutable state of one transfer in flight. -/
structure PipeState where
  activeChunks : ℤ
  transferred : ℚ
  lastTransferred : ℚ
  lastTime : ℚ
  avgSpeed : ℚ
  speedSamples : List ℚ
  readPaused : Bool
  writePendingDrain : Bool
  reports : List Report
deriving DecidableEq, Repr

/-- The state at stream start (lines 49-56 and 137-138): counters zero,
transferred and lastTransferred at the resume offset, timer at t0. -/
def initState (startPosition t0 : ℚ) : PipeState :=
  { activeChunks := 0
  , transferred := startPosition
  , lastTransferred := startPosition
  , lastTime := t0
  , avgSpeed := 0
  , speedSamples := []
  , readPaused := false
  , writePendingDrain := false
  , reports := [] }

/-- Lines 178-181 of the data handler: push the current speed sample and
shift the ring once it holds more than SPEED_SAMPLE_SIZE entries. -/
def pushSample (speedSamples : List ℚ) (currentSpeed : ℚ) : List ℚ :=
  let pushed := speedSamples ++ [currentSpeed]
  if pushed.length > TRANSFER_CONSTANTS.SPEED_SAMPLE_SIZE then pushed.drop 1
  else pushed

/-- Lines 173-194 of the data handler: when at least a second passed, push
the current speed sample, average the ring, compute eta = ceil(remaining /
avgSpeed), tick the bar and reset the window. -/
def recordProgress (fileSize now : ℚ) (s : PipeState) : PipeState :=
  let timeDiff := now - s.lastTime
  if timeDiff ≥ 1000 then
    let currentSpeed := (s.transferred - s.lastTransferred) / (timeDiff / 1000)
    let samples := pushSample s.speedSamples currentSpeed
    let avgSpeed := samples.sum / (samples.length : ℚ)
    let remainingBytes := fileSize - s.transferred
    { s with
      speedSamples := samples
      avgSpeed := avgSpeed
      reports := s.reports ++ [{ speed := avgSpeed, remaining := remainingBytes,
                                 eta := ⌈remainingBytes / avgSpeed⌉ }]
      lastTransferred := s.transferred
      lastTime := now }
  else s

/-- Lines 164-165 of the data handler: count the chunk into activeChunks
and transferred. -/
def dataCounted (s : PipeState) (chunkLen : Nat) : PipeState :=
  { s with
    activeChunks := s.activeChunks + 1
    transferred := s.transferred + (chunkLen : ℚ) }

/-- Lines 168-170 of the data handler: pause the read stream once
activeChunks reaches MAX_CONCURRENT_CHUNKS. -/
def capPause (s : PipeState) : PipeState :=
  if s.activeChunks ≥ TRANSFER_CONSTANTS.MAX_CONCURRENT_CHUNKS then
    { s with readPaused := true }
  else s

/-- Lines 196-199 of the data handler: write the chunk and pause the read
stream when the write returned false (buffer full); a false write is what
arms the later drain event. -/
def writePause (s : PipeState) (writeFull : Bool) : PipeState :=
  if writeFull then { s with readPaused := true, writePendingDrain := true }
  else s

/-- The data handler, lines 163-200, as the sequence of its four phases:
count the chunk, check the chunk cap, update progress, write under
backpressure. In the unthrottled configuration the handler listens on the
readStream itself, so a data event can only happen while the read stream
is flowing, with a nonempty chunk. -/
def stepData (fileSize : ℚ) (s : PipeState) (now : ℚ) (chunkLen : Nat)
    (writeFull : Bool) : Option PipeState :=
  if s.readPaused then none
  else if chunkLen = 0 then none
  else some (writePause (recordProgress fileSize now (capPause (dataCounted s chunkLen)))
               writeFull)

/-- The drain handler, lines 202-205: decrement the chunk count and resume
the read stream. A drain event can only follow a write that returned
false. -/
def stepDrain (s : PipeState) : Option PipeState :=
  if s.writePendingDrain then
    some { s with
      activeChunks := s.activeChunks - 1
      readPaused := false
      writePendingDrain := false }
  else none

/-- An event of the streaming phase: data carries the Date.now() timestamp,
the chunk length and whether writeStream.write returned false. -/
inductive Event where
  | data (now : ℚ) (chunkLen : Nat) (writeFull : Bool)
  | drain
deriving DecidableEq, Repr

/-- One step of the machine. -/
def step (fileSize : ℚ) (s : PipeState) : Event → Option PipeState
  | .data now chunkLen writeFull => stepData fileSize s now chunkLen writeFull
  | .drain => stepDrain s

/-- Run the handlers over an event sequence; none means the sequence is not
an execution of the pipeline. -/
def run (fileSize : ℚ) (s : PipeState) : List Event → Option PipeState
  | [] => some s
  | e :: evs =>
      match step fileSize s e with
      | none => none
      | some next => run fileSize next evs

/-- What the read stream is piped into before the data handler sees it. -/
inductive DataStreamChoice where
  | direct
  | throttled (ts : ThrottledStream)
deriving DecidableEq, Repr

/-- transferFile lines 152-160: `let dataStream = readStream`, then only a
truthy CONFIG.TRANSFER_SPEED_LIMIT pipes the read stream through a new
ThrottledStream; config.js leaves the limit null when the variable is
unset, and a zero limit is falsy. -/
def selectDataStream (transferSpeedLimit : Option ℚ) (now : ℚ) :
    DataStreamChoice :=
  match transferSpeedLimit with
  | none => .direct
  | some l =>
      if l = 0 then .direct
      else .throttled (ThrottledStream.construct (some l) now)

/-! ## The streaming phase — throttled configuration

When CONFIG.TRANSFER_SPEED_LIMIT is set, line 159 makes `dataStream =
readStream.pipe(throttledStream)`. The handlers still pause and resume the
readStream (lines 169, 198, 204), but the data events now come from the
ThrottledStream, and pipe adds its own flow control: pipe's ondata writes
each transport chunk into the throttle's writable side — the transport
chunks carry up to CHUNK_SIZE = 64 KB while a Transform's writable high
water mark defaults to 16 KB, so the write returns false and pipe pauses
the readStream — and pipe's ondrain resumes the readStream whenever the
throttle's writable side drains, which happens as soon as the queued chunk
has passed through _transform. The machine below embeds that wiring: a
queued chunk is pushed (firing the data handler) regardless of the
readStream's paused state, and completing the push empties the throttle's
writable buffer, fires its writable drain and makes pipe resume the
readStream — overriding any pause the handler just performed. -/

/-- The default writable high water mark of a Node Transform stream
(16 KB), below every full CHUNK_SIZE transport chunk. -/
def WRITABLE_HIGH_WATER_MARK : Nat := 16 * 1024

/-- The streaming state in the throttled configuration: the handler state
plus the chunk lengths buffered inside the ThrottledStream (written by
pipe, not yet pushed). The readPaused field of `pipe` is the readStream's
paused flag, the one the handlers and pipe's flow control act on. -/
structure ThrottledPipe where
  pipe : PipeState
  throttleQueue : List Nat
deriving DecidableEq, Repr

/-- The throttled streaming state at stream start. -/
def initThrottledPipe (startPosition t0 : ℚ) : ThrottledPipe :=
  { pipe := initState startPosition t0, throttleQueue := [] }

/-- A transport data event under pipe: it is delivered only while the
readStream is flowing; pipe writes the chunk (a full transport chunk, at
least the Transform writable high water mark) into the ThrottledStream,
the write returns false against the 16 KB mark and pipe pauses the
readStream awaiting the throttle's writable drain. -/
def stepPull (s : ThrottledPipe) (chunkLen : Nat) : Option ThrottledPipe :=
  if s.pipe.readPaused then none
  else if chunkLen < WRITABLE_HIGH_WATER_MARK then none
  else some
    { throttleQueue := s.throttleQueue ++ [chunkLen]
      pipe := { s.pipe with readPaused := true } }

/-- The ThrottledStream pushes its first queued chunk, immediately or from
its setTimeout. The push fires the data handler (lines 163-200)
synchronously — whatever the readStream's paused state, since the handler
listens on the throttled dataStream — then the _transform callback
completes the pending write; once the throttle's writable buffer is empty
its writable drain fires and pipe resumes the readStream, overriding the
pause the handler may just have performed at the cap or on a full local
write. -/
def stepEmit (fileSize : ℚ) (s : ThrottledPipe) (now : ℚ) (writeFull : Bool) :
    Option ThrottledPipe :=
  match s.throttleQueue with
  | [] => none
  | chunkLen :: rest =>
      let afterHandler :=
        writePause (recordProgress fileSize now (capPause (dataCounted s.pipe chunkLen)))
          writeFull
      some
        { pipe :=
            if rest.isEmpty then { afterHandler with readPaused := false }
            else afterHandler
          throttleQueue := rest }

/-- The local writeStream drain handler (lines 202-205) in the throttled
configuration: same body, acting on the handler state. -/
def stepFileDrain (s : ThrottledPipe) : Option ThrottledPipe :=
  match stepDrain s.pipe with
  | none => none
  | some p => some { s with pipe := p }

/-- An event of the throttled streaming phase. -/
inductive TEvent where
  | pull (chunkLen : Nat)
  | emit (now : ℚ) (writeFull : Bool)
  | fileDrain
deriving DecidableEq, Repr

/-- One step of the throttled machine. -/
def stepThrottled (fileSize : ℚ) (s : ThrottledPipe) :
    TEvent → Option ThrottledPipe
  | .pull chunkLen => stepPull s chunkLen
  | .emit now writeFull => stepEmit fileSize s now writeFull
  | .fileDrain => stepFileDrain s

/-- Run the throttled machine over an event sequence. -/
def runThrottled (fileSize : ℚ) (s : ThrottledPipe) :
    List TEvent → Option ThrottledPipe
  | [] => some s
  | e :: evs =>
      match stepThrottled fileSize s e with
      | none => none
      | some next => runThrottled fileSize next evs

/-- Thirty-three rounds of pull-then-push with no local-write backpressure:
a valid throttled execution in which activeChunks climbs past the cap,
because each round's writable drain makes pipe resume the readStream the
cap check paused. -/
def capViolationTrace : List TEvent :=
  [TEvent.pull 65536, TEvent.emit 0 false, TEvent.pull 65536, TEvent.emit 0 false,
   TEvent.pull 65536, TEvent.emit 0 false, TEvent.pull 65536, TEvent.emit 0 false,
   TEvent.pull 65536, TEvent.emit 0 false, TEvent.pull 65536, TEvent.emit 0 false,
   TEvent.pull 65536, TEvent.emit 0 false, TEvent.pull 65536, TEvent.emit 0 false,
   TEvent.pull 65536, TEvent.emit 0 false, TEvent.pull 65536, TEvent.emit 0 false,
   TEvent.pull 65536, TEvent.emit 0 false, TEvent.pull 65536, TEvent.emit 0 false,
   TEvent.pull 65536, TEvent.emit 0 false, TEvent.pull 65536, TEvent.emit 0 false,
   TEvent.pull 65536, TEvent.emit 0 false, TEvent.pull 65536, TEvent.emit 0 false,
   TEvent.pull 65536, TEvent.emit 0 false, TEvent.pull 65536, TEvent.emit 0 false,
   TEvent.pull 65536, TEvent.emit 0 false, TEvent.pull 65536, TEvent.emit 0 false,
   TEvent.pull 65536, TEvent.emit 0 false, TEvent.pull 65536, TEvent.emit 0 false,
   TEvent.pull 65536, TEvent.emit 0 false, TEvent.pull 65536, TEvent.emit 0 false,
   TEvent.pull 65536, TEvent.emit 0 false, TEvent.pull 65536, TEvent.emit 0 false,
   TEvent.pull 65536, TEvent.emit 0 false, TEvent.pull 65536, TEvent.emit 0 false,
   TEvent.pull 65536, TEvent.emit 0 false, TEvent.pull 65536, TEvent.emit 0 false,
   TEvent.pull 65536, TEvent.emit 0 false, TEvent.pull 65536, TEvent.emit 0 false,
   TEvent.pull 65536, TEvent.emit 0 false]

/-- A full local write followed by another transport pull with no local
drain in between: a valid throttled execution, because the throttle's
writable drain resumes the readStream that the full write paused. -/
def backpressureViolationTrace : List TEvent :=
  [TEvent.pull 65536, TEvent.emit 0 true, TEvent.pull 65536, TEvent.emit 1 false]

/-- The chunk-counting half of the machine invariant: the buffered-chunk
counter stays within the cap, and a flowing (unpaused) stream is strictly
below it. -/
def ChunkInv (s : PipeState) : Prop :=
  s.activeChunks ≤ TRANSFER_CONSTANTS.MAX_CONCURRENT_CHUNKS ∧
  (s.readPaused = false → s.activeChunks < TRANSFER_CONSTANTS.MAX_CONCURRENT_CHUNKS)

/-- The progress-meter half of the machine invariant: the transfer counter
never falls behind the window marker, every speed sample is positive, and
every report carries a positive average speed and the eta the formula
ceil(remaining / speed) yields for it. -/
def MeterInv (s : PipeState) : Prop :=
  s.lastTransferred ≤ s.transferred ∧
  (∀ x ∈ s.speedSamples, 0 < x) ∧
  (∀ r ∈ s.reports, 0 < r.speed ∧ r.eta = ⌈r.remaining / r.speed⌉)

/-- The inductive invariant of the streaming machine. -/
def PipeInv (s : PipeState) : Prop :=
  ChunkInv s ∧ MeterInv s

end Plexrr

namespace Plexrr

/-! ## Theorems -/

/-- C1: whenever the resume offset is at least the remote file size,
transferFile takes the skip path: it closes the connection and resolves
(success) with the skipped-status object, and no transport read stream is
opened on that path. -/
theorem c1_skip_closes_connection_without_stream (startPosition fileSize : Nat)
    (h : startPosition ≥ fileSize) :
    transferAfterStat startPosition fileSize =
      [Action.connEnd, Action.resolveWith skippedResult] ∧
    (∀ st, Action.openReadStream st ∉ transferAfterStat startPosition fileSize) ∧
    Action.connEnd ∈ transferAfterStat startPosition fileSize ∧
    skippedResult.getField "status" = some "skipped" := by
  have he : transferAfterStat startPosition fileSize =
      [Action.connEnd, Action.resolveWith skippedResult] := by
    simp [transferAfterStat, h]
  refine ⟨he, ?_, ?_, by decide⟩
  · intro st
    rw [he]
    simp
  · rw [he]
    simp

/-- C1 witness: a transfer whose local file already holds 5 bytes of a
3-byte remote file is skipped with the connection closed. -/
theorem c1_witness :
    transferAfterStat 5 3 = [Action.connEnd, Action.resolveWith skippedResult] ∧
    (∀ st, Action.openReadStream st ∉ transferAfterStat 5 3) ∧
    Action.connEnd ∈ transferAfterStat 5 3 ∧
    skippedResult.getField "status" = some "skipped" :=
  c1_skip_closes_connection_without_stream 5 3 (by decide)

/-- C2 counterexample: a stat rejection whose code is EACCES (not
not-found) is swallowed by the bare catch — getResumePosition turns it into
offset 0 instead of propagating a FilesystemError as the claim states. -/
theorem c2_counterexample :
    getResumePosition (StatResult.error FsErrorCode.EACCES) = Except.ok 0 ∧
    getResumePositionSpec (StatResult.error FsErrorCode.EACCES) =
      Except.error (TransferError.filesystemError FsErrorCode.EACCES) ∧
    getResumePosition (StatResult.error FsErrorCode.EACCES) ≠
      getResumePositionSpec (StatResult.error FsErrorCode.EACCES) := by
  refine ⟨rfl, rfl, ?_⟩
  simp [getResumePosition, getResumePositionSpec]

/-- C2 amended: the resume-offset computation returns the local byte length
when stat succeeds and 0 when stat fails for any reason whatsoever — no
filesystem error, not-found or otherwise, is ever propagated. -/
theorem c2_amended_catch_all_returns_zero :
    (∀ n, getResumePosition (StatResult.ok n) = Except.ok n) ∧
    (∀ c, getResumePosition (StatResult.error c) = Except.ok 0) :=
  ⟨fun _ => rfl, fun _ => rfl⟩

/-- C4 counterexample: with an empty window (bytesEmittedInWindow = 0,
elapsed = 0) and a 1000-byte chunk at rate 3000 B/s, the claimed delay
1000 * bytesEmittedInWindow / bytesPerSecond - elapsed is 0, but the code
suspends for ceil(1000 * (0 + 1000) / 3000 - 0) = 334 ms: the delay is
computed from the counter after the chunk is added, and rounded up. -/
theorem c4_counterexample :
    (ThrottledStream.transform ⟨3000, 0, 0⟩ 0 1000).1 = EmitTiming.delayed 334 ∧
    specClaimedDelay 0 3000 0 = 0 ∧
    ((334 : ℚ) ≠ specClaimedDelay 0 3000 0) := by
  refine ⟨?_, ?_, ?_⟩
  · norm_num [ThrottledStream.transform, Int.ceil_eq_iff]
  · norm_num [specClaimedDelay]
  · norm_num [specClaimedDelay]

/-- C4 amended: on each chunk the limiter adds the chunk to the window
counter first; if the updated counter exceeds allowed = bytesPerSecond *
elapsed / 1000 it suspends for ceil(1000 * (bytesEmittedInWindow +
chunkSize) / bytesPerSecond - elapsed) milliseconds, then resets the window
(counter 0, window start at wake time) and emits; otherwise it emits
immediately, keeping the window and the updated counter. -/
theorem c4_amended_throttle_delay (ts : ThrottledStream)
    (now chunkLength wake : ℚ) :
    (ts.bytesThisPeriod + chunkLength >
        ts.bytesPerSecond * (now - ts.lastCheck) / 1000 →
      (ts.transform now chunkLength).1 =
        EmitTiming.delayed
          ⌈1000 * (ts.bytesThisPeriod + chunkLength) / ts.bytesPerSecond -
            (now - ts.lastCheck)⌉ ∧
      ((ts.transform now chunkLength).2 wake).bytesThisPeriod = 0 ∧
      ((ts.transform now chunkLength).2 wake).lastCheck = wake) ∧
    (¬ (ts.bytesThisPeriod + chunkLength >
        ts.bytesPerSecond * (now - ts.lastCheck) / 1000) →
      (ts.transform now chunkLength).1 = EmitTiming.immediate ∧
      ((ts.transform now chunkLength).2 wake).bytesThisPeriod =
        ts.bytesThisPeriod + chunkLength ∧
      ((ts.transform now chunkLength).2 wake).lastCheck = ts.lastCheck) := by
  constructor
  · intro h
    simp [ThrottledStream.transform, h]
  · intro h
    simp [ThrottledStream.transform, h]

/-- C5: the rate limiter is content- and order-preserving — running any
chunk sequence through the ThrottledStream emits exactly the input chunks,
unmodified, in the input order, each exactly once; only the timing
differs. -/
theorem c5_throttle_preserves_content_and_order (ts : ThrottledStream)
    (inputs : List TimedChunk) :
    throttledRun ts inputs = inputs.map TimedChunk.chunk := by
  induction inputs generalizing ts with
  | nil => rfl
  | cons tc rest ih => simp [throttledRun, ih]

/-- C9: the formatting helpers reproduce the example strings of the
specification exactly. -/
theorem c9_formatter_examples :
    formatSpeed 1536 = "1.50 KB/s" ∧
    formatSpeed 500 = "500.00 B/s" ∧
    formatEta 45 = "45s" ∧
    formatEta 125 = "2m 5s" ∧
    formatEta 3725 = "1h 2m 5s" ∧
    formatEta 90065 = "1d 1h 1m 5s" := by
  refine ⟨?_, ?_, ?_, ?_, ?_, ?_⟩ <;>
    first
    | (norm_num [formatSpeed, speedLoop, toFixed2]; decide)
    | (norm_num [formatEta, jsMod, jsTrunc]; decide)

/-- C8 counterexample: neither terminal resolution has the claimed
{status, bytesTransferred, elapsedTime, message} shape — the skipped path
resolves an object with only status and message, and the completed path
resolves a bare string with no fields at all. -/
theorem c8_counterexample :
    Action.resolveWith skippedResult ∈ transferAfterStat 5 3 ∧
    skippedResult.getField "bytesTransferred" = none ∧
    skippedResult.getField "elapsedTime" = none ∧
    completeResult.fieldNames = [] ∧
    completeResult.getField "status" = none := by
  refine ⟨by decide, by decide, by decide, by decide, by decide⟩

/-- C8 amended: the skipped outcome resolves an object holding exactly a
status ("skipped") and a message; the completed outcome, reached in the
writeStream finish handler after closing the connection, resolves the bare
string "\nTransfer complete!" — neither carries bytesTransferred or
elapsedTime. -/
theorem c8_amended_terminal_result_shapes :
    (∀ startPosition fileSize : Nat, fileSize ≤ startPosition →
      transferAfterStat startPosition fileSize =
        [Action.connEnd, Action.resolveWith skippedResult]) ∧
    skippedResult.fieldNames = ["status", "message"] ∧
    skippedResult.getField "status" = some "skipped" ∧
    skippedResult.getField "message" = some "File already completely downloaded" ∧
    finishActions = [Action.connEnd, Action.resolveWith completeResult] ∧
    completeResult = JsValue.str "\nTransfer complete!" := by
  refine ⟨?_, by decide, by decide, by decide, rfl, rfl⟩
  intro startPosition fileSize h
  simp [transferAfterStat, h]

/-- C10: a ThrottledStream constructed with no bytesPerSecond option is not
a passthrough — it carries the built-in default of 1048576 bytes per second
and delays an over-budget chunk (here by 1001 ms) — while the transfer
pipeline omits the ThrottledStream entirely when no speed limit is
configured, which is the only reason an unthrottled transfer passes data
through untouched. -/
theorem c10_default_rate_and_pipeline_omission (t0 : ℚ) :
    (ThrottledStream.construct none t0).bytesPerSecond = 1024 * 1024 ∧
    ((ThrottledStream.construct none t0).transform t0 1048577).1 =
      EmitTiming.delayed 1001 ∧
    selectDataStream none t0 = DataStreamChoice.direct ∧
    selectDataStream (some 262144) t0 =
      DataStreamChoice.throttled (ThrottledStream.construct (some 262144) t0) := by
  refine ⟨rfl, ?_, rfl, by norm_num [selectDataStream]⟩
  have hz : t0 - t0 = (0 : ℚ) := sub_self t0
  norm_num [ThrottledStream.construct, ThrottledStream.transform, hz,
    Int.ceil_eq_iff]

end Plexrr

namespace Plexrr

/-! ### Helper lemmas about the streaming machine -/

theorem run_append (f : ℚ) (s : PipeState) (l1 l2 : List Event) :
    run f s (l1 ++ l2) = (run f s l1).bind fun s1 => run f s1 l2 := by
  induction l1 generalizing s with
  | nil => simp [run]
  | cons e l1 ih =>
      cases hstep : step f s e <;> simp [run, hstep, ih]

theorem stepData_of_paused (f : ℚ) (s : PipeState) (now : ℚ) (len : Nat)
    (wf : Bool) (h : s.readPaused = true) :
    stepData f s now len wf = none := by
  simp [stepData, h]

theorem stepData_writeFull_pauses (f : ℚ) (s s2 : PipeState) (now : ℚ)
    (len : Nat) (h : stepData f s now len true = some s2) :
    s2.readPaused = true := by
  unfold stepData at h
  split at h
  · exact Option.noConfusion h
  · split at h
    · exact Option.noConfusion h
    · cases Option.some.inj h
      rfl

theorem paused_blocks (f : ℚ) (l2 : List Event) (s : PipeState)
    (hp : s.readPaused = true) (now : ℚ) (len : Nat) (wf : Bool)
    (l3 : List Event)
    (h : (run f s (l2 ++ Event.data now len wf :: l3)).isSome = true) :
    Event.drain ∈ l2 := by
  cases l2 with
  | nil =>
      rw [List.nil_append] at h
      simp [run, step, stepData_of_paused f s now len wf hp] at h
  | cons e l2 =>
      cases e with
      | drain => exact List.mem_cons_self _ _
      | data n c w =>
          rw [List.cons_append] at h
          simp [run, step, stepData_of_paused f s n c w hp] at h

theorem capPause_activeChunks (s : PipeState) :
    (capPause s).activeChunks = s.activeChunks := by
  unfold capPause; split <;> rfl

theorem capPause_transferred (s : PipeState) :
    (capPause s).transferred = s.transferred := by
  unfold capPause; split <;> rfl

theorem capPause_lastTransferred (s : PipeState) :
    (capPause s).lastTransferred = s.lastTransferred := by
  unfold capPause; split <;> rfl

theorem capPause_meter (s : PipeState) : MeterInv (capPause s) ↔ MeterInv s := by
  unfold capPause; split <;> exact Iff.rfl

theorem capPause_readPaused_false (s : PipeState)
    (h : (capPause s).readPaused = false) :
    ¬ s.activeChunks ≥ TRANSFER_CONSTANTS.MAX_CONCURRENT_CHUNKS ∧
      s.readPaused = false := by
  unfold capPause at h
  split at h
  · exact absurd h (by simp)
  · exact ⟨by assumption, h⟩

theorem writePause_activeChunks (s : PipeState) (wf : Bool) :
    (writePause s wf).activeChunks = s.activeChunks := by
  unfold writePause; split <;> rfl

theorem writePause_readPaused (s : PipeState) (wf : Bool) :
    (writePause s wf).readPaused = (wf || s.readPaused) := by
  cases wf <;> simp [writePause]

theorem writePause_meter (s : PipeState) (wf : Bool) :
    MeterInv (writePause s wf) ↔ MeterInv s := by
  unfold writePause; split <;> exact Iff.rfl

theorem recordProgress_activeChunks (f now : ℚ) (s : PipeState) :
    (recordProgress f now s).activeChunks = s.activeChunks := by
  simp only [recordProgress]
  split <;> rfl

theorem recordProgress_readPaused (f now : ℚ) (s : PipeState) :
    (recordProgress f now s).readPaused = s.readPaused := by
  simp only [recordProgress]
  split <;> rfl

theorem pushSample_pos (samples : List ℚ) (x : ℚ)
    (hD : ∀ y ∈ samples, 0 < y) (hx : 0 < x) :
    ∀ y ∈ pushSample samples x, 0 < y := by
  intro y hy
  have hmem : y ∈ samples ++ [x] := by
    simp only [pushSample] at hy
    split at hy
    · exact List.mem_of_mem_drop hy
    · exact hy
  rcases List.mem_append.mp hmem with h | h
  · exact hD y h
  · cases List.mem_singleton.mp h
    exact hx

theorem pushSample_ne_nil (samples : List ℚ) (x : ℚ) :
    pushSample samples x ≠ [] := by
  simp only [pushSample]
  have h10 : TRANSFER_CONSTANTS.SPEED_SAMPLE_SIZE = 10 := rfl
  split
  · apply List.ne_nil_of_length_pos
    rw [List.length_drop]
    rename_i hlen
    rw [h10] at hlen
    omega
  · simp

theorem recordProgress_meter (f now : ℚ) (s : PipeState) (hM : MeterInv s)
    (hlt : s.lastTransferred < s.transferred) :
    MeterInv (recordProgress f now s) := by
  obtain ⟨hC, hD, hE⟩ := hM
  simp only [recordProgress]
  split
  · rename_i htd
    set cur := (s.transferred - s.lastTransferred) / ((now - s.lastTime) / 1000)
      with hcurdef
    have hdt : (0 : ℚ) < now - s.lastTime :=
      lt_of_lt_of_le (by norm_num) htd
    have hcur : 0 < cur :=
      div_pos (sub_pos.mpr hlt) (div_pos hdt (by norm_num))
    have hsamp := pushSample_pos s.speedSamples cur hD hcur
    have hne := pushSample_ne_nil s.speedSamples cur
    have hsum : 0 < (pushSample s.speedSamples cur).sum :=
      List.sum_pos _ hsamp hne
    have hlen : (0 : ℚ) < ((pushSample s.speedSamples cur).length : ℚ) := by
      exact_mod_cast List.length_pos.mpr hne
    have havg :
        0 < (pushSample s.speedSamples cur).sum /
          ((pushSample s.speedSamples cur).length : ℚ) :=
      div_pos hsum hlen
    refine ⟨le_refl _, hsamp, ?_⟩
    intro r hr
    rcases List.mem_append.mp hr with h | h
    · exact hE r h
    · cases List.mem_singleton.mp h
      exact ⟨havg, rfl⟩
  · exact ⟨hC, hD, hE⟩

theorem stepData_inv (f now : ℚ) (len : Nat) (wf : Bool) (s s2 : PipeState)
    (h : stepData f s now len wf = some s2) (hI : PipeInv s) : PipeInv s2 := by
  obtain ⟨⟨hA, hB⟩, hM⟩ := hI
  unfold stepData at h
  split at h
  · exact Option.noConfusion h
  · rename_i hpF
    split at h
    · exact Option.noConfusion h
    · rename_i hlen0
      rw [Bool.not_eq_true] at hpF
      have hlen : (0 : ℚ) < (len : ℚ) := by
        exact_mod_cast Nat.pos_of_ne_zero hlen0
      cases Option.some.inj h
      constructor
      · constructor
        · rw [writePause_activeChunks, recordProgress_activeChunks,
            capPause_activeChunks]
          exact Int.add_one_le_iff.mpr (hB hpF)
        · intro hps
          rw [writePause_readPaused, recordProgress_readPaused] at hps
          obtain ⟨hwf, hcp⟩ := Bool.or_eq_false_iff.mp hps
          obtain ⟨hnotcap, _⟩ := capPause_readPaused_false _ hcp
          rw [writePause_activeChunks, recordProgress_activeChunks,
            capPause_activeChunks]
          exact lt_of_not_ge hnotcap
      · rw [writePause_meter]
        apply recordProgress_meter
        · rw [capPause_meter]
          obtain ⟨hC, hD, hE⟩ := hM
          exact ⟨le_trans hC (le_add_of_nonneg_right (le_of_lt hlen)), hD, hE⟩
        · rw [capPause_lastTransferred, capPause_transferred]
          show s.lastTransferred < s.transferred + (len : ℚ)
          have hC := hM.1
          linarith

theorem stepDrain_inv (s s2 : PipeState) (h : stepDrain s = some s2)
    (hI : PipeInv s) : PipeInv s2 := by
  obtain ⟨⟨hA, hB⟩, hM⟩ := hI
  have h32 : TRANSFER_CONSTANTS.MAX_CONCURRENT_CHUNKS = 32 := rfl
  unfold stepDrain at h
  split at h
  · cases Option.some.inj h
    refine ⟨⟨?_, ?_⟩, hM⟩
    · show s.activeChunks - 1 ≤ TRANSFER_CONSTANTS.MAX_CONCURRENT_CHUNKS
      rw [h32] at hA ⊢
      omega
    · intro _
      show s.activeChunks - 1 < TRANSFER_CONSTANTS.MAX_CONCURRENT_CHUNKS
      rw [h32] at hA ⊢
      omega
  · exact Option.noConfusion h

theorem step_inv (f : ℚ) (e : Event) (s s2 : PipeState)
    (h : step f s e = some s2) (hI : PipeInv s) : PipeInv s2 := by
  cases e with
  | data now len wf => exact stepData_inv f now len wf s s2 h hI
  | drain => exact stepDrain_inv s s2 h hI

theorem init_inv (st t0 : ℚ) : PipeInv (initState st t0) := by
  refine ⟨⟨?_, ?_⟩, ?_, ?_, ?_⟩
  · show (0 : ℤ) ≤ TRANSFER_CONSTANTS.MAX_CONCURRENT_CHUNKS
    decide
  · intro _
    show (0 : ℤ) < TRANSFER_CONSTANTS.MAX_CONCURRENT_CHUNKS
    decide
  · exact le_refl _
  · intro x hx
    exact absurd hx (List.not_mem_nil x)
  · intro r hr
    exact absurd hr (List.not_mem_nil r)

theorem run_inv (f : ℚ) (evs : List Event) : ∀ s s2 : PipeState,
    run f s evs = some s2 → PipeInv s → PipeInv s2 := by
  induction evs with
  | nil =>
      intro s s2 h hI
      cases Option.some.inj h
      exact hI
  | cons e evs ih =>
      intro s s2 h hI
      cases hstep : step f s e with
      | none =>
          simp only [run, hstep] at h
          exact Option.noConfusion h
      | some s1 =>
          simp only [run, hstep] at h
          exact ih s1 s2 h (step_inv f e s s1 hstep hI)

end Plexrr

namespace Plexrr

/-- C3 (amended): in the unthrottled configuration — no
TRANSFER_SPEED_LIMIT, so the data handler listens on the readStream itself
and its pause gates the transport — once a data event's local write
reports a full buffer (write returned false), no further data event, hence
no chunk pulled from the transport, can occur before a drain event of the
write side: any valid trace with a later data event has a drain between
them. In the throttled configuration this guarantee fails: pipe resumes
the readStream on the ThrottledStream's writable drain, so the transport
is pulled after the full write and before the local drain. -/
theorem c3_backpressure_pause_until_drain (f st t0 : ℚ)
    (l1 l2 l3 : List Event) (now now2 : ℚ) (len len2 : Nat) (wf2 : Bool)
    (h : (run f (initState st t0)
        (l1 ++ Event.data now len true ::
          (l2 ++ Event.data now2 len2 wf2 :: l3))).isSome = true) :
    Event.drain ∈ l2 := by
  rw [run_append] at h
  cases h1 : run f (initState st t0) l1 with
  | none => rw [h1] at h; simp at h
  | some s1 =>
      rw [h1] at h
      simp only [Option.some_bind] at h
      cases h2 : step f s1 (Event.data now len true) with
      | none =>
          simp only [run, h2] at h
          simp at h
      | some s2 =>
          have hp : s2.readPaused = true :=
            stepData_writeFull_pauses f s1 s2 now len h2
          simp only [run, h2] at h
          exact paused_blocks f l2 s2 hp now2 len2 wf2 l3 h

/-- C3 witness: the trace pause, drain, next chunk is valid, and the drain
stands between the full write and the next data event. -/
theorem c3_witness : Event.drain ∈ ([Event.drain] : List Event) :=
  c3_backpressure_pause_until_drain 100 0 0 [] [Event.drain] [] 0 1 1 1 false
    (by norm_num [run, step, stepData, stepDrain, dataCounted, capPause,
      writePause, recordProgress, pushSample, initState,
      TRANSFER_CONSTANTS.MAX_CONCURRENT_CHUNKS,
      TRANSFER_CONSTANTS.SPEED_SAMPLE_SIZE])

/-- C6 (amended): in the unthrottled configuration — where the data
handler listens on the readStream itself — the buffered-chunk counter
never exceeds MAX_CONCURRENT_CHUNKS = 32 in any reachable state; at the
cap the read stream is paused, and while it is paused no data event is
accepted, so no further chunk can be buffered until a drain lowers the
count. In the throttled configuration the cap is not enforced: queued
chunks keep firing data events past the pause and pipe resumes the
readStream on the throttle's writable drain, letting activeChunks exceed
32. -/
theorem c6_active_chunks_capped (f st t0 : ℚ) (evs : List Event)
    (s : PipeState) (h : run f (initState st t0) evs = some s) :
    s.activeChunks ≤ TRANSFER_CONSTANTS.MAX_CONCURRENT_CHUNKS ∧
    (s.activeChunks = TRANSFER_CONSTANTS.MAX_CONCURRENT_CHUNKS →
      s.readPaused = true) ∧
    (s.readPaused = true →
      ∀ (now : ℚ) (len : Nat) (wf : Bool), stepData f s now len wf = none) := by
  obtain ⟨⟨hA, hB⟩, _⟩ := run_inv f evs (initState st t0) s h (init_inv st t0)
  refine ⟨hA, ?_, ?_⟩
  · intro hEq
    cases hpb : s.readPaused with
    | true => rfl
    | false => exact absurd (hEq ▸ hB hpb) (lt_irrefl _)
  · intro hp now len wf
    exact stepData_of_paused f s now len wf hp

/-- C6 witness: after one 1-byte chunk the counter is 1, within the cap. -/
theorem c6_witness :
    (⟨1, 1, 0, 0, 0, [], false, false, []⟩ : PipeState).activeChunks ≤
      TRANSFER_CONSTANTS.MAX_CONCURRENT_CHUNKS ∧
    ((⟨1, 1, 0, 0, 0, [], false, false, []⟩ : PipeState).activeChunks =
        TRANSFER_CONSTANTS.MAX_CONCURRENT_CHUNKS →
      (⟨1, 1, 0, 0, 0, [], false, false, []⟩ : PipeState).readPaused = true) ∧
    ((⟨1, 1, 0, 0, 0, [], false, false, []⟩ : PipeState).readPaused = true →
      ∀ (now : ℚ) (len : Nat) (wf : Bool),
        stepData 10 (⟨1, 1, 0, 0, 0, [], false, false, []⟩ : PipeState)
          now len wf = none) :=
  c6_active_chunks_capped 10 0 0 [Event.data 0 1 false]
    ⟨1, 1, 0, 0, 0, [], false, false, []⟩
    (by norm_num [run, step, stepData, dataCounted, capPause, writePause,
      recordProgress, pushSample, initState,
      TRANSFER_CONSTANTS.MAX_CONCURRENT_CHUNKS,
      TRANSFER_CONSTANTS.SPEED_SAMPLE_SIZE])

/-- C7: every progress report of every reachable state of the streaming
phase carries a strictly positive average speed — the eta division never
divides by zero, the zero-speed case the specification reserves for an
unknown eta cannot arise — and its eta is exactly
ceil(remainingBytes / avgSpeed). -/
theorem c7_eta_formula_speed_positive (f st t0 : ℚ) (evs : List Event)
    (s : PipeState) (h : run f (initState st t0) evs = some s) :
    ∀ r ∈ s.reports, 0 < r.speed ∧ r.eta = ⌈r.remaining / r.speed⌉ := by
  obtain ⟨_, _, _, hE⟩ := run_inv f evs (initState st t0) s h (init_inv st t0)
  exact hE

/-- C7 witness: the report produced 2 seconds into a 100-byte transfer after
two 5-byte chunks has speed 5 B/ms-window, remaining 90 and eta
ceil(90 / 5) = 18. -/
theorem c7_witness :
    0 < ({ speed := 5, remaining := 90, eta := 18 } : Report).speed ∧
    ({ speed := 5, remaining := 90, eta := 18 } : Report).eta =
      ⌈({ speed := 5, remaining := 90, eta := 18 } : Report).remaining /
        ({ speed := 5, remaining := 90, eta := 18 } : Report).speed⌉ :=
  c7_eta_formula_speed_positive 100 0 0
    [Event.data 0 5 false, Event.data 2000 5 false]
    ⟨2, 10, 10, 2000, 5, [5], false, false, [⟨5, 90, 18⟩]⟩
    (by norm_num [run, step, stepData, dataCounted, capPause, writePause,
      recordProgress, pushSample, initState,
      TRANSFER_CONSTANTS.MAX_CONCURRENT_CHUNKS,
      TRANSFER_CONSTANTS.SPEED_SAMPLE_SIZE])
    ⟨5, 90, 18⟩ (List.mem_singleton.mpr rfl)

end Plexrr

namespace Plexrr

/-- C3 counterexample: with a configured speed limit the original claim
fails at a concrete execution. The trace pull, data-with-full-write, pull,
data is a valid run of the throttled pipeline — after the local write
returned false and paused the readStream, completing the throttle's
_transform emptied its writable buffer, its writable drain fired and pipe
resumed the readStream, so the transport was pulled again — while the
local write side never reported drained (no fileDrain occurs in the trace
and writePendingDrain is still armed at the end). -/
theorem c3_counterexample :
    runThrottled 1000000 (initThrottledPipe 0 0) backpressureViolationTrace =
      some ⟨⟨2, 131072, 0, 0, 0, [], false, true, []⟩, []⟩ ∧
    TEvent.fileDrain ∉ backpressureViolationTrace ∧
    backpressureViolationTrace =
      [TEvent.pull 65536, TEvent.emit 0 true, TEvent.pull 65536,
       TEvent.emit 1 false] := by
  refine ⟨?_, ?_, rfl⟩
  · norm_num [backpressureViolationTrace, runThrottled, stepThrottled, stepPull,
      stepEmit, stepFileDrain, dataCounted, capPause, writePause, recordProgress,
      pushSample, initThrottledPipe, initState, WRITABLE_HIGH_WATER_MARK,
      TRANSFER_CONSTANTS.MAX_CONCURRENT_CHUNKS,
      TRANSFER_CONSTANTS.SPEED_SAMPLE_SIZE]
  · simp [backpressureViolationTrace]

/-- C6 counterexample: with a configured speed limit the original cap claim
fails at a concrete execution. Thirty-three pull/data rounds with no local
drain form a valid run of the throttled pipeline ending with activeChunks
= 33 > 32 = MAX_CONCURRENT_CHUNKS: the cap check pauses the readStream at
32, but each round's throttle writable drain makes pipe resume it, so the
transport keeps being pulled and chunks keep being buffered. -/
theorem c6_counterexample :
    runThrottled 1000000 (initThrottledPipe 0 0) capViolationTrace =
      some ⟨⟨33, 2162688, 0, 0, 0, [], false, false, []⟩, []⟩ ∧
    TRANSFER_CONSTANTS.MAX_CONCURRENT_CHUNKS < 33 ∧
    TEvent.fileDrain ∉ capViolationTrace := by
  refine ⟨?_, by decide, ?_⟩
  · norm_num [capViolationTrace, runThrottled, stepThrottled, stepPull,
      stepEmit, stepFileDrain, dataCounted, capPause, writePause, recordProgress,
      pushSample, initThrottledPipe, initState, WRITABLE_HIGH_WATER_MARK,
      TRANSFER_CONSTANTS.MAX_CONCURRENT_CHUNKS,
      TRANSFER_CONSTANTS.SPEED_SAMPLE_SIZE]
  · simp [capViolationTrace]

end Plexrr
